import Mathlib

/-!
Verification of the feature-engineering and temporal-consistency pipeline of a
retail sales-forecasting repository.  The Python sources are shallowly embedded:
pandas DataFrames become lists of records, datetime values become a calendar
`Date` structure, group-by/mean tables become association lists, and functions
that raise become `Except`-valued functions.  Rational numbers stand in for the
float-valued volume/feature columns.
-/

set_option maxRecDepth 10000

/-- A calendar date, standing in for a pandas datetime value (day precision is
all the pipeline uses). -/
structure Date where
  year : ℕ
  month : ℕ
  day : ℕ
deriving DecidableEq, Repr

/-- Strict comparison of datetime values (`<` on pandas timestamps). -/
def Date.lt (a b : Date) : Prop :=
  a.year < b.year ∨ (a.year = b.year ∧
    (a.month < b.month ∨ (a.month = b.month ∧ a.day < b.day)))

/-- Non-strict comparison of datetime values (`<=` / `>=` on pandas timestamps). -/
def Date.le (a b : Date) : Prop :=
  Date.lt a b ∨ a = b

instance (a b : Date) : Decidable (Date.lt a b) := by
  unfold Date.lt; infer_instance

instance (a b : Date) : Decidable (Date.le a b) := by
  unfold Date.le; infer_instance

theorem Date.lt_of_lt_of_le {a b c : Date} (h1 : Date.lt a b) (h2 : Date.le b c) :
    Date.lt a c := by
  rcases h2 with h2 | rfl
  · rcases a with ⟨y1, m1, d1⟩; rcases b with ⟨y2, m2, d2⟩; rcases c with ⟨y3, m3, d3⟩
    simp only [Date.lt, Date.mk.injEq] at h1 h2 ⊢
    omega
  · exact h1

theorem Date.not_le_of_lt {a b : Date} (h : Date.lt a b) : ¬ Date.le b a := by
  rcases a with ⟨y1, m1, d1⟩; rcases b with ⟨y2, m2, d2⟩
  simp only [Date.lt, Date.le, Date.mk.injEq] at h ⊢
  omega

/-- `calendar.isleap`-style leap-year test used by the datetime accessors. -/
def isLeapYear (y : ℕ) : Bool :=
  y % 4 == 0 && (y % 100 != 0 || y % 400 == 0)

/-- Number of days in a calendar month. -/
def daysInMonth (y m : ℕ) : ℕ :=
  if m = 2 then (if isLeapYear y then 29 else 28)
  else if m = 4 ∨ m = 6 ∨ m = 9 ∨ m = 11 then 30
  else 31

/-- Ordinal day of the year (1-based), as used by the ISO-week computation. -/
def dayOfYear (d : Date) : ℕ :=
  (List.range (d.month - 1)).foldl (fun acc i => acc + daysInMonth d.year (i + 1)) 0 + d.day

/-- Sakamoto month offsets for the day-of-week computation. -/
def sakamotoOffset (m : ℕ) : ℕ :=
  [0, 3, 2, 5, 0, 3, 5, 1, 4, 6, 2, 4].getD (m - 1) 0

/-- Day of week with Monday = 0 and Sunday = 6, matching `Series.dt.dayofweek`. -/
def dayOfWeek (d : Date) : ℕ :=
  let y := if d.month < 3 then d.year - 1 else d.year
  let sunday0 := (y + y / 4 - y / 100 + y / 400 + sakamotoOffset d.month + d.day) % 7
  (sunday0 + 6) % 7

/-- Helper for the ISO 53-week-year rule. -/
def isoYearP (y : ℕ) : ℕ :=
  (y + y / 4 - y / 100 + y / 400) % 7

/-- Number of ISO weeks in a year (52 or 53). -/
def isoWeeksInYear (y : ℕ) : ℕ :=
  if isoYearP y = 4 ∨ isoYearP (y - 1) = 3 then 53 else 52

/-- ISO week of year, matching `Series.dt.isocalendar().week`. -/
def isoWeekOfYear (d : Date) : ℕ :=
  let isoWeekday := dayOfWeek d + 1
  let w := (dayOfYear d + 10 - isoWeekday) / 7
  if w = 0 then isoWeeksInYear (d.year - 1)
  else if w = 53 ∧ isoWeeksInYear d.year = 52 then 1
  else w

/-- Calendar quarter, matching `Series.dt.quarter`. -/
def quarterOf (m : ℕ) : ℕ :=
  (m + 2) / 3

/-! ## Configuration constants (`src/configs/config.py`) -/

def KEY_COLS : List String := ["agency", "sku"]

def DATE_COL : String := "date"

def TARGET_COL : String := "volume"

def LAGS : List ℕ := [1, 2, 3, 6, 12]

def ROLLING_WINDOWS : List ℕ := [3, 6, 12]

def HORIZONS : List ℕ := [1, 2, 3, 4]

/-! ## Panel records

`Row0` is a raw record of the training/prediction CSV: the (agency, sku) entity
key, the date, the target volume and the exogenous dataset columns used by
`get_feature_columns`.  The later structures extend it with the columns the
pipeline stages append. -/

structure Row0 where
  agency : String
  sku : String
  date : Date
  volume : ℚ
  avg_max_temp : ℚ
  price_actual : ℚ
  discount_in_percent : ℚ
deriving DecidableEq, Repr

/-- A record after `create_temporal_features` appended the calendar columns. -/
structure Row1 extends Row0 where
  year : ℕ
  month : ℕ
  day : ℕ
  day_of_month : ℕ
  day_of_week : ℕ
  week_of_year : ℕ
  quarter : ℕ
deriving DecidableEq, Repr

/-- A record after `create_historical_features` merged the three grouped-mean
columns (left joins, hence `Option`: an unmatched key leaves a null). -/
structure Row2 extends Row1 where
  mean_volume_agency_sku_month : Option ℚ
  mean_volume_agency_sku : Option ℚ
  mean_volume_sku_month : Option ℚ
deriving DecidableEq, Repr

/-- A record after `encode_categorical_features` appended the integer codes
(`Series.map` over a dict leaves a null for an unseen identifier). -/
structure Row3 extends Row2 where
  agency_encoded : Option ℕ
  sku_encoded : Option ℕ
deriving DecidableEq, Repr

/-! ## `src/data/loader.py` -/

namespace loader

/-- `split_train_test` of `src/data/loader.py`: train is every row with
`date < test_start`, test is every row with `date >= test_start`. -/
def split_train_test (df : List Row0) (test_start : Date) : List Row0 × List Row0 :=
  (df.filter (fun r => decide (Date.lt r.date test_start)),
   df.filter (fun r => decide (Date.le test_start r.date)))

end loader

/-! ## `src/data/preprocessing.py` -/

namespace prep

/-- A raw record as seen by `preprocess_data`; the target may be missing
(`volume` is the column `isna` is checked on). -/
structure PRow where
  agency : String
  sku : String
  date : Date
  volume : Option ℚ
deriving DecidableEq, Repr

/-- The ways `preprocess_data` raises: the explicit `ValueError`s of the source,
plus the pandas `KeyError` that a column access raises after the
constant-column elimination dropped that column. -/
inductive PreprocessError where
  | missingTarget
  | duplicateRows
  | keyError
deriving DecidableEq, Repr

/-- `nunique(dropna=False) <= 1`: every value of the column equals every other
(missing values compare as the single NaN bucket, modelled by `Option`). -/
def allEq {α : Type} [DecidableEq α] : List α → Bool
  | [] => true
  | x :: xs => xs.all (fun y => decide (y = x))

/-- Row order of `sort_values(KEY_COLS + [DATE_COL])`: lexicographic on
(agency, sku, date). -/
def rowLe (a b : PRow) : Prop :=
  a.agency < b.agency ∨ (a.agency = b.agency ∧
    (a.sku < b.sku ∨ (a.sku = b.sku ∧ Date.le a.date b.date)))

instance (a b : PRow) : Decidable (rowLe a b) := by
  unfold rowLe; infer_instance

/-- The (agency, sku, date) key `duplicated(subset=...)` is checked on. -/
def rowKey (r : PRow) : String × String × Date :=
  (r.agency, r.sku, r.date)

/-- `preprocess_data` of `src/data/preprocessing.py`: sort by key and date, drop
columns that are constant across the whole frame (`nunique(dropna=False) <= 1`),
raise on missing targets, then raise on duplicated (agency, sku, date) keys.
Column accesses after the constant-column drop (`df[TARGET_COL]` in the missing
check, the key columns in the duplicate check) raise a `KeyError` when the
column was dropped, which the embedding surfaces as `PreprocessError.keyError`.
The embedding keeps the four schema columns; `DROP_COLS` and the final column
reordering do not affect them. -/
def preprocess_data (rows : List PRow) : Except PreprocessError (List PRow) :=
  let sorted := List.insertionSort rowLe rows
  if allEq (sorted.map (fun r => r.volume)) then
    Except.error PreprocessError.keyError
  else if sorted.any (fun r => decide (r.volume = none)) then
    Except.error PreprocessError.missingTarget
  else if allEq (sorted.map (fun r => r.agency)) || allEq (sorted.map (fun r => r.sku))
      || allEq (sorted.map (fun r => r.date)) then
    Except.error PreprocessError.keyError
  else if decide (¬ (sorted.map rowKey).Nodup) then
    Except.error PreprocessError.duplicateRows
  else
    Except.ok sorted

/-- `max_date - pd.DateOffset(months=n)`: the same calendar day `n` months
earlier, with the day clamped to the length of the target month. -/
def subMonths (d : Date) (n : ℕ) : Date :=
  let k := d.year * 12 + (d.month - 1) - n
  let y := k / 12
  let m := k % 12 + 1
  ⟨y, m, min d.day (daysInMonth y m)⟩

/-- `df[DATE_COL].max()`. -/
def maxDate (df : List PRow) : Date :=
  df.foldl (fun acc r => if Date.lt acc r.date then r.date else acc) ⟨0, 1, 1⟩

/-- `split_train_test` of `src/data/preprocessing.py`: the cutoff is
`n_val_periods` months before the maximum date; train is `date < cutoff`,
test is `date >= cutoff`. -/
def split_train_test (df : List PRow) (n_val_periods : ℕ) : List PRow × List PRow :=
  let cutoff := subMonths (maxDate df) n_val_periods
  (df.filter (fun r => decide (Date.lt r.date cutoff)),
   df.filter (fun r => decide (Date.le cutoff r.date)))

end prep

/-! ## `src/features/engineering.py` -/

/-- `create_temporal_features`: append year, month, day, day_of_month,
day_of_week, week_of_year and quarter, all derived from the date column. -/
def create_temporal_features (df : List Row0) : List Row1 :=
  df.map (fun r =>
    { toRow0 := r
      year := r.date.year
      month := r.date.month
      day := r.date.day
      day_of_month := r.date.day
      day_of_week := dayOfWeek r.date
      week_of_year := isoWeekOfYear r.date
      quarter := quarterOf r.date.month })

/-- Distinct values of a column in first-occurrence order, with an accumulator
of already-seen values (the semantics of `Series.unique` and of iterating a
group-by key set). -/
def uniqueAux {α : Type} [DecidableEq α] : List α → List α → List α
  | [], _ => []
  | x :: xs, seen => if x ∈ seen then uniqueAux xs seen else x :: uniqueAux xs (x :: seen)

/-- Distinct values of a column in first-occurrence order. -/
def uniqueFS {α : Type} [DecidableEq α] (l : List α) : List α :=
  uniqueAux l []

/-- Arithmetic mean of a column, as `Series.mean` computes it. -/
def meanOf (l : List ℚ) : ℚ :=
  l.sum / (l.length : ℚ)

/-- `groupby(key)["volume"].mean().reset_index()`: one (key, mean) pair per
distinct key of the frame.  The key order of the pandas result (sorted groups)
is immaterial to the table-as-mapping semantics; the embedding keeps
first-occurrence order. -/
def groupMeanBy {κ : Type} [DecidableEq κ] (key : Row1 → κ) (df : List Row1) :
    List (κ × ℚ) :=
  (uniqueFS (df.map key)).map (fun k =>
    (k, meanOf ((df.filter (fun r => decide (key r = k))).map (fun r => r.volume))))

/-- Lookup of a grouping key in a grouped-mean table: the semantics of a pandas
left merge for the row holding that key (`none` models the NaN an unmatched key
receives). -/
def tlookup {κ : Type} [DecidableEq κ] (tbl : List (κ × ℚ)) (k : κ) : Option ℚ :=
  (tbl.find? (fun p => decide (p.1 = k))).map (fun p => p.2)

/-- The `historical_means` dictionary: the three grouped-mean tables computed by
`create_historical_features` in fit mode. -/
structure HistMeans where
  by_agency_sku_month : List ((String × String × ℕ) × ℚ)
  by_agency_sku : List ((String × String) × ℚ)
  by_sku_month : List ((String × ℕ) × ℚ)
deriving DecidableEq, Repr

/-- `create_historical_features`: when no `historical_means` is supplied,
compute the three grouped mean tables of the volume (by agency/sku/month, by
agency/sku, by sku/month); in either mode, left-merge each table onto the frame
by its grouping key and return the frame together with the tables. -/
def create_historical_features (df : List Row1) (historical_means : Option HistMeans) :
    List Row2 × HistMeans :=
  let hm := match historical_means with
    | some t => t
    | none =>
      { by_agency_sku_month := groupMeanBy (fun r => (r.agency, r.sku, r.month)) df
        by_agency_sku := groupMeanBy (fun r => (r.agency, r.sku)) df
        by_sku_month := groupMeanBy (fun r => (r.sku, r.month)) df }
  (df.map (fun r =>
    { toRow1 := r
      mean_volume_agency_sku_month := tlookup hm.by_agency_sku_month (r.agency, r.sku, r.month)
      mean_volume_agency_sku := tlookup hm.by_agency_sku (r.agency, r.sku)
      mean_volume_sku_month := tlookup hm.by_sku_month (r.sku, r.month) }), hm)

/-- `{value: idx for idx, value in enumerate(values)}`: assign consecutive
integer codes to a list of identifiers, starting at `n`. -/
def assignCodes : List String → ℕ → List (String × ℕ)
  | [], _ => []
  | x :: xs, n => (x, n) :: assignCodes xs (n + 1)

/-- The `encoders` dictionary: one identifier-to-code map per categorical
column. -/
structure Encoders where
  agency : List (String × ℕ)
  sku : List (String × ℕ)
deriving DecidableEq, Repr

/-- `Series.map(encoder_dict)`: the code of an identifier, or `none` (NaN) when
the identifier is not a key of the fitted map. -/
def encode (e : List (String × ℕ)) (x : String) : Option ℕ :=
  (e.find? (fun p => decide (p.1 = x))).map (fun p => p.2)

/-- Modelled from the spec: the inverse direction of the Entity Encoder
("maps codes back to identifiers; used post-prediction to restore
human-readable output keys") is not among the sources under `src/`; per the
spec it is the inverse lookup of the fitted identifier-to-code map. -/
def decode (e : List (String × ℕ)) (c : ℕ) : Option String :=
  (e.find? (fun p => decide (p.2 = c))).map (fun p => p.1)

/-- `encode_categorical_features`: when no encoders are supplied, fit one dense
zero-based code per distinct agency and per distinct sku (first-seen order of
`Series.unique`); in either mode, map the two identifier columns through the
maps, leaving NaN (`none`) for identifiers absent from a supplied map. -/
def encode_categorical_features (df : List Row2) (encoders : Option Encoders) :
    List Row3 × Encoders :=
  let enc := match encoders with
    | some e => e
    | none =>
      { agency := assignCodes (uniqueFS (df.map (fun r => r.agency))) 0
        sku := assignCodes (uniqueFS (df.map (fun r => r.sku))) 0 }
  (df.map (fun r =>
    { toRow2 := r
      agency_encoded := encode enc.agency r.agency
      sku_encoded := encode enc.sku r.sku }), enc)

/-- `prepare_features`: temporal features, then historical features
(fit-or-reuse), then categorical encoding (fit-or-reuse). -/
def prepare_features (df : List Row0) (historical_means : Option HistMeans)
    (encoders : Option Encoders) : List Row3 × HistMeans × Encoders :=
  let df1 := create_temporal_features df
  let p2 := create_historical_features df1 historical_means
  let p3 := encode_categorical_features p2.1 encoders
  (p3.1, p2.2, p3.2)

/-- `get_feature_columns`: the canonical ordered feature column list. -/
def get_feature_columns : List String :=
  ["agency_encoded", "sku_encoded",
   "year", "month", "day", "day_of_week", "week_of_year", "quarter",
   "mean_volume_agency_sku_month", "mean_volume_agency_sku", "mean_volume_sku_month",
   "avg_max_temp", "price_actual", "discount_in_percent"]

/-- `get_target_column`. -/
def get_target_column : String :=
  "volume"

/-! ## `src/inference/predictor.py` -/

/-- The feature row `df_prepared[get_feature_columns()]` hands to the model:
exactly the fourteen canonical feature columns. -/
structure Features where
  agency_encoded : Option ℕ
  sku_encoded : Option ℕ
  year : ℕ
  month : ℕ
  day : ℕ
  day_of_week : ℕ
  week_of_year : ℕ
  quarter : ℕ
  mean_volume_agency_sku_month : Option ℚ
  mean_volume_agency_sku : Option ℚ
  mean_volume_sku_month : Option ℚ
  avg_max_temp : ℚ
  price_actual : ℚ
  discount_in_percent : ℚ
deriving DecidableEq, Repr

/-- Selection of the canonical feature columns from a prepared record. -/
def featuresOf (r : Row3) : Features :=
  { agency_encoded := r.agency_encoded
    sku_encoded := r.sku_encoded
    year := r.year
    month := r.month
    day := r.day
    day_of_week := r.day_of_week
    week_of_year := r.week_of_year
    quarter := r.quarter
    mean_volume_agency_sku_month := r.mean_volume_agency_sku_month
    mean_volume_agency_sku := r.mean_volume_agency_sku
    mean_volume_sku_month := r.mean_volume_sku_month
    avg_max_temp := r.avg_max_temp
    price_actual := r.price_actual
    discount_in_percent := r.discount_in_percent }

/-- A prepared record with the `predicted_volume` column appended. -/
structure PredRow extends Row3 where
  predicted_volume : ℚ
deriving DecidableEq, Repr

/-- `predict` of `src/inference/predictor.py`: prepare features with the saved
artifacts, evaluate the model on the feature columns, and append the raw model
outputs as `predicted_volume`.  The external model is the `predict` contract:
a function from a feature row to a number. -/
def predict (df : List Row0) (model : Features → ℚ) (historical_means : HistMeans)
    (encoders : Encoders) : List PredRow :=
  ((prepare_features df (some historical_means) (some encoders)).1).map (fun r =>
    { toRow3 := r, predicted_volume := model (featuresOf r) })

/-- `pd.date_range(start, end, freq="MS")`: the first-of-month dates lying in
the closed interval. -/
def month_starts (start_date end_date : Date) : List Date :=
  let k0 := start_date.year * 12 + (start_date.month - 1) +
    (if start_date.day ≤ 1 then 0 else 1)
  let k1 := end_date.year * 12 + (end_date.month - 1)
  (List.range (k1 + 1 - k0)).map (fun i => ⟨(k0 + i) / 12, (k0 + i) % 12 + 1, 1⟩)

/-- The cartesian rows `generate_forecast` builds: for each date, agency and
sku, a row with the placeholder values of the source. -/
def forecast_rows (agencies skus : List String) (start_date end_date : Date) :
    List Row0 :=
  (month_starts start_date end_date).flatMap (fun d =>
    agencies.flatMap (fun a =>
      skus.map (fun sk =>
        { agency := a, sku := sk, date := d, volume := 0,
          avg_max_temp := 25, price_actual := 1000, discount_in_percent := 5 })))

/-- The output schema of `generate_forecast`:
`result[["agency", "sku", "date", "predicted_volume"]]`. -/
structure ForecastRow where
  agency : String
  sku : String
  date : Date
  predicted_volume : ℚ
deriving DecidableEq, Repr

/-- `generate_forecast`: build the cartesian panel over month starts, agencies
and skus, run `predict` on it, and keep the four output columns. -/
def generate_forecast (agencies skus : List String) (start_date end_date : Date)
    (model : Features → ℚ) (historical_means : HistMeans) (encoders : Encoders) :
    List ForecastRow :=
  (predict (forecast_rows agencies skus start_date end_date) model historical_means
    encoders).map (fun r =>
    { agency := r.agency, sku := r.sku, date := r.date,
      predicted_volume := r.predicted_volume })

/-! ## Lag and rolling features

The Lag/Rolling Feature Generator the spec describes (section 4.3) has no
implementation among the sources under `src/`; only its configuration
(`LAGS`, `ROLLING_WINDOWS` in `src/configs/config.py`) is present there.  The
definitions below model it from the spec. -/

/-- Modelled from the spec: the target series of one entity, "that entity's own
time-ordered series" — the volume column of the rows of one (agency, sku) pair
of a time-ordered panel. -/
def entity_series (df : List Row0) (a sk : String) : List ℚ :=
  (df.filter (fun r => decide (r.agency = a ∧ r.sku = sk))).map (fun r => r.volume)

/-- Modelled from the spec: the lag-`L` column of a target series, the series
shifted by `L` ("computed over the shifted series"), with the first `L` entries
undefined. -/
def lag_feature (L : ℕ) (s : List ℚ) : List (Option ℚ) :=
  (List.replicate L none ++ s.map some).take s.length

/-- Modelled from the spec: the rolling-mean-`W` column of a target series,
"mean(target[t-W .. t-1]) — strictly excluding the current observation t
(computed over the shifted-by-1 series)"; undefined while the window is not yet
full.  Entry `t` averages the last `W` entries of the prefix before `t`. -/
def rolling_mean_feature (W : ℕ) (s : List ℚ) : List (Option ℚ) :=
  (List.range s.length).map (fun t =>
    if W ≤ t then some (meanOf ((s.take t).drop (t - W))) else none)

/-! ## Concrete sample data (used by witnesses and counterexamples) -/

def sampleDate (m : ℕ) : Date := ⟨2013, m, 1⟩

def sampleRow (m : ℕ) (v : ℚ) : Row0 :=
  ⟨"Agency_01", "SKU_01", sampleDate m, v, 25, 1000, 5⟩

def sampleDf : List Row0 :=
  [sampleRow 1 10, sampleRow 2 20, sampleRow 3 30, sampleRow 4 40, sampleRow 5 50]

def sampleHM : HistMeans :=
  ⟨[(("Agency_01", "SKU_01", 1), 11)], [(("Agency_01", "SKU_01"), 12)],
   [(("SKU_01", 1), 13)]⟩

def sampleEnc : Encoders :=
  ⟨[("Agency_01", 0)], [("SKU_01", 0)]⟩

def pRow (a s : String) (m : ℕ) (v : Option ℚ) : prep.PRow :=
  ⟨a, s, ⟨2013, m, 1⟩, v⟩

def cleanPanel : List prep.PRow :=
  [pRow "a" "s1" 1 (some 5), pRow "b" "s2" 2 (some 7)]

def dupPanel : List prep.PRow :=
  [pRow "a" "s1" 1 (some 5), pRow "a" "s1" 1 (some 7), pRow "b" "s2" 2 (some 9)]

def missingPanel : List prep.PRow :=
  [pRow "a" "s1" 1 (some 5), pRow "b" "s2" 2 none]

def singletonPanel : List prep.PRow :=
  [pRow "a" "s1" 1 (some 5)]

/-! ## Helper lemmas -/

theorem mem_uniqueAux {α : Type} [DecidableEq α] (a : α) :
    ∀ (l seen : List α), a ∈ uniqueAux l seen ↔ a ∈ l ∧ a ∉ seen := by
  intro l
  induction l with
  | nil => intro seen; simp [uniqueAux]
  | cons x xs ih =>
    intro seen
    by_cases hx : x ∈ seen
    · rw [uniqueAux, if_pos hx, ih]
      constructor
      · rintro ⟨h1, h2⟩
        exact ⟨List.mem_cons_of_mem _ h1, h2⟩
      · rintro ⟨h1, h2⟩
        rcases List.mem_cons.mp h1 with rfl | h1
        · exact absurd hx h2
        · exact ⟨h1, h2⟩
    · rw [uniqueAux, if_neg hx]
      simp only [List.mem_cons, ih, List.mem_cons, not_or]
      by_cases hax : a = x
      · simp [hax, hx]
      · simp [hax, and_assoc]

theorem mem_uniqueFS {α : Type} [DecidableEq α] (a : α) (l : List α) :
    a ∈ uniqueFS l ↔ a ∈ l := by
  rw [uniqueFS, mem_uniqueAux]
  simp

theorem find_fst_eq_none {α β : Type} [DecidableEq α] (x : α) :
    ∀ (l : List (α × β)), x ∉ l.map Prod.fst →
      l.find? (fun p => decide (p.1 = x)) = none := by
  intro l
  induction l with
  | nil => intro _; rfl
  | cons p ps ih =>
    intro h
    simp only [List.map_cons, List.mem_cons, not_or] at h
    rw [List.find?_cons]
    have hne : (decide (p.1 = x)) = false := by
      simp only [decide_eq_false_iff_not]
      exact fun hc => h.1 hc.symm
    rw [hne]
    exact ih h.2

theorem find_fst_of_mem {α β : Type} [DecidableEq α] (x : α) (b : β) :
    ∀ (l : List (α × β)), (l.map Prod.fst).Nodup → (x, b) ∈ l →
      l.find? (fun p => decide (p.1 = x)) = some (x, b) := by
  intro l
  induction l with
  | nil => intro _ h; simp at h
  | cons p ps ih =>
    intro hnd hm
    simp only [List.map_cons, List.nodup_cons] at hnd
    rw [List.find?_cons]
    rcases List.mem_cons.mp hm with rfl | hm
    · simp
    · have hne : (decide (p.1 = x)) = false := by
        simp only [decide_eq_false_iff_not]
        intro hc
        exact hnd.1 (hc ▸ (List.mem_map.mpr ⟨(x, b), hm, rfl⟩))
      rw [hne]
      exact ih hnd.2 hm

theorem tlookup_eq_none {κ : Type} [DecidableEq κ] (tbl : List (κ × ℚ)) (k : κ)
    (h : k ∉ tbl.map Prod.fst) : tlookup tbl k = none := by
  simp [tlookup, find_fst_eq_none k tbl h]

theorem tlookup_of_mem {κ : Type} [DecidableEq κ] (tbl : List (κ × ℚ)) (k : κ) (m : ℚ)
    (hnd : (tbl.map Prod.fst).Nodup) (hm : (k, m) ∈ tbl) : tlookup tbl k = some m := by
  simp [tlookup, find_fst_of_mem k m tbl hnd hm]

theorem tlookup_map_self {κ : Type} [DecidableEq κ] (g : κ → ℚ) (k : κ) :
    ∀ l : List κ, tlookup (l.map (fun x => (x, g x))) k =
      if k ∈ l then some (g k) else none := by
  intro l
  induction l with
  | nil => simp [tlookup]
  | cons x xs ih =>
    by_cases hx : x = k
    · subst hx
      simp [tlookup, List.find?_cons]
    · rw [List.map_cons, tlookup, List.find?_cons]
      have hne : (decide ((x, g x).1 = k)) = false := by
        simpa using hx
      rw [hne]
      rw [tlookup] at ih
      rw [ih]
      have hkx : ¬ k = x := fun h => hx h.symm
      simp [List.mem_cons, hkx]

theorem tlookup_groupMeanBy {κ : Type} [DecidableEq κ] (key : Row1 → κ) (df : List Row1)
    (k : κ) : tlookup (groupMeanBy key df) k =
      if k ∈ df.map key then
        some (meanOf ((df.filter (fun r => decide (key r = k))).map (fun r => r.volume)))
      else none := by
  rw [groupMeanBy, tlookup_map_self]
  by_cases hk : k ∈ List.map key df
  · rw [if_pos ((mem_uniqueFS _ _).mpr hk), if_pos hk]
  · rw [if_neg (fun hc => hk ((mem_uniqueFS _ _).mp hc)), if_neg hk]

theorem encode_eq_none (e : List (String × ℕ)) (x : String)
    (h : x ∉ e.map Prod.fst) : encode e x = none := by
  simp [encode, find_fst_eq_none x e h]

theorem assignCodes_roundtrip (x : String) :
    ∀ (l : List String) (n : ℕ), x ∈ l →
      ∃ c, n ≤ c ∧ encode (assignCodes l n) x = some c ∧
        decode (assignCodes l n) c = some x := by
  intro l
  induction l with
  | nil => intro n h; simp at h
  | cons y ys ih =>
    intro n h
    by_cases hxy : x = y
    · subst hxy
      refine ⟨n, le_refl n, ?_, ?_⟩
      · simp [assignCodes, encode, List.find?_cons]
      · simp [assignCodes, decode, List.find?_cons]
    · rcases List.mem_cons.mp h with rfl | hmem
      · exact absurd rfl hxy
      · obtain ⟨c, hc, henc, hdec⟩ := ih (n + 1) hmem
        refine ⟨c, by omega, ?_, ?_⟩
        · rw [assignCodes, encode, List.find?_cons]
          have hne : (decide ((y, n).1 = x)) = false := by
            simp only [decide_eq_false_iff_not]
            exact fun hc2 => hxy hc2.symm
          rw [hne]
          exact henc
        · rw [assignCodes, decode, List.find?_cons]
          have hne : (decide ((y, n).2 = c)) = false := by
            simp only [decide_eq_false_iff_not]
            omega
          rw [hne]
          exact hdec

theorem lag_feature_getElem (L t : ℕ) (s : List ℚ) (ht : t < s.length) :
    (lag_feature L s)[t]? = if L ≤ t then some (s[t - L]?) else some none := by
  rw [lag_feature, List.getElem?_take, if_pos ht, List.getElem?_append]
  by_cases hL : L ≤ t
  · rw [if_neg (by simp; omega), if_pos hL]
    rw [List.length_replicate, List.getElem?_map]
    have hlt : t - L < s.length := by omega
    rw [List.getElem?_eq_getElem hlt]
    simp
  · rw [if_pos (by simp; omega), if_neg hL]
    rw [List.getElem?_replicate, if_pos (by omega)]

theorem take_set_eq_take {α : Type} (v : α) :
    ∀ (s : List α) (t : ℕ), (s.set t v).take t = s.take t := by
  intro s
  induction s with
  | nil => intro t; simp
  | cons x xs ih =>
    intro t
    cases t with
    | zero => simp
    | succ n => simp [List.set, List.take, ih]

theorem rolling_mean_feature_getElem (W t : ℕ) (s : List ℚ) (ht : t < s.length) :
    (rolling_mean_feature W s)[t]? =
      some (if W ≤ t then some (meanOf ((s.take t).drop (t - W))) else none) := by
  rw [rolling_mean_feature, List.getElem?_map, List.getElem?_range ht]
  simp

theorem rolling_window_length (W t : ℕ) (s : List ℚ) (hW : W ≤ t) (ht : t ≤ s.length) :
    ((s.take t).drop (t - W)).length = W := by
  rw [List.length_drop, List.length_take]
  omega

theorem rolling_window_getElem (W t i : ℕ) (s : List ℚ) (hW : W ≤ t) (hi : i < W) :
    ((s.take t).drop (t - W))[i]? = s[t - W + i]? := by
  rw [List.getElem?_drop, List.getElem?_take, if_pos (by omega)]

theorem allEq_iff {α : Type} [DecidableEq α] (l : List α) :
    prep.allEq l = true ↔ ∀ a ∈ l, ∀ b ∈ l, a = b := by
  cases l with
  | nil => simp [prep.allEq]
  | cons x xs =>
    rw [prep.allEq, List.all_eq_true]
    constructor
    · intro h a ha b hb
      have key : ∀ c ∈ x :: xs, c = x := by
        intro c hc
        rcases List.mem_cons.mp hc with rfl | hc
        · rfl
        · simpa using h c hc
      rw [key a ha, key b hb]
    · intro h y hy
      simpa using h y (List.mem_cons_of_mem _ hy) x (List.mem_cons_self _ _)

/-! ## Claims -/

/-- C1: for every input panel, every configured lag L in LAGS = {1,2,3,6,12}
and every (agency, sku) entity, the lag-L feature at position t of that
entity's own time-ordered series equals the entity's target value L periods
earlier (a defined value), and is null when fewer than L prior observations
exist for that entity. -/
theorem c1_lag_feature_correct (df : List Row0) (a sk : String) (L t : ℕ)
    (_hL : L ∈ LAGS) (ht : t < (entity_series df a sk).length) :
    (L ≤ t → ∃ v, (entity_series df a sk)[t - L]? = some v ∧
      (lag_feature L (entity_series df a sk))[t]? = some (some v)) ∧
    (t < L → (lag_feature L (entity_series df a sk))[t]? = some none) := by
  constructor
  · intro hLt
    have hlt : t - L < (entity_series df a sk).length := by omega
    refine ⟨(entity_series df a sk)[t - L], List.getElem?_eq_getElem hlt, ?_⟩
    rw [lag_feature_getElem L t _ ht, if_pos hLt, List.getElem?_eq_getElem hlt]
  · intro hLt
    rw [lag_feature_getElem L t _ ht, if_neg (by omega)]

theorem c1_lag_feature_correct_witness :
    ((3 : ℕ) ∈ LAGS ∧ (3 : ℕ) < (entity_series sampleDf "Agency_01" "SKU_01").length ∧
      (3 : ℕ) ≤ 3 ∧
      (∃ v, (entity_series sampleDf "Agency_01" "SKU_01")[3 - 3]? = some v ∧
        (lag_feature 3 (entity_series sampleDf "Agency_01" "SKU_01"))[3]? =
          some (some v))) ∧
    ((12 : ℕ) ∈ LAGS ∧ (1 : ℕ) < 12 ∧
      (lag_feature 12 (entity_series sampleDf "Agency_01" "SKU_01"))[1]? = some none) :=
  ⟨⟨by decide, by decide, by decide,
    (c1_lag_feature_correct sampleDf "Agency_01" "SKU_01" 3 3 (by decide)
      (by decide)).1 (by decide)⟩,
   ⟨by decide, by decide,
    (c1_lag_feature_correct sampleDf "Agency_01" "SKU_01" 12 1 (by decide)
      (by decide)).2 (by decide)⟩⟩

/-- C2: for every input panel, every configured window W in
ROLLING_WINDOWS = {3,6,12} and every entity, the rolling-mean feature at
position t of that entity's series is the mean of the window holding exactly
the W target values at positions t-W .. t-1 (the current observation t is
excluded, so mutating the target at t never changes the feature at t), and is
null when fewer than W prior observations exist. -/
theorem c2_rolling_mean_no_leakage (df : List Row0) (a sk : String) (W t : ℕ)
    (_hW : W ∈ ROLLING_WINDOWS) (ht : t < (entity_series df a sk).length) :
    (W ≤ t →
      (rolling_mean_feature W (entity_series df a sk))[t]? =
        some (some (meanOf (((entity_series df a sk).take t).drop (t - W)))) ∧
      (((entity_series df a sk).take t).drop (t - W)).length = W ∧
      (∀ i, i < W → (((entity_series df a sk).take t).drop (t - W))[i]? =
        (entity_series df a sk)[t - W + i]?)) ∧
    (t < W → (rolling_mean_feature W (entity_series df a sk))[t]? = some none) ∧
    (∀ v, (rolling_mean_feature W ((entity_series df a sk).set t v))[t]? =
      (rolling_mean_feature W (entity_series df a sk))[t]?) := by
  refine ⟨?_, ?_, ?_⟩
  · intro hWt
    refine ⟨?_, rolling_window_length W t _ hWt (le_of_lt ht),
      fun i hi => rolling_window_getElem W t i _ hWt hi⟩
    rw [rolling_mean_feature_getElem W t _ ht, if_pos hWt]
  · intro hWt
    rw [rolling_mean_feature_getElem W t _ ht, if_neg (by omega)]
  · intro v
    have hset : t < ((entity_series df a sk).set t v).length := by
      rw [List.length_set]; exact ht
    rw [rolling_mean_feature_getElem W t _ hset, rolling_mean_feature_getElem W t _ ht,
      take_set_eq_take]

theorem c2_rolling_mean_no_leakage_witness :
    ((3 : ℕ) ∈ ROLLING_WINDOWS ∧
      (4 : ℕ) < (entity_series sampleDf "Agency_01" "SKU_01").length ∧ (3 : ℕ) ≤ 4 ∧
      (rolling_mean_feature 3 (entity_series sampleDf "Agency_01" "SKU_01"))[4]? =
        some (some (meanOf (((entity_series sampleDf "Agency_01" "SKU_01").take 4).drop
          (4 - 3))))) ∧
    ((2 : ℕ) < 3 ∧
      (rolling_mean_feature 3 (entity_series sampleDf "Agency_01" "SKU_01"))[2]? =
        some none) ∧
    (rolling_mean_feature 3 ((entity_series sampleDf "Agency_01" "SKU_01").set 4 999))[4]? =
      (rolling_mean_feature 3 (entity_series sampleDf "Agency_01" "SKU_01"))[4]? :=
  ⟨⟨by decide, by decide, by decide,
    ((c2_rolling_mean_no_leakage sampleDf "Agency_01" "SKU_01" 3 4 (by decide)
      (by decide)).1 (by decide)).1⟩,
   ⟨by decide,
    (c2_rolling_mean_no_leakage sampleDf "Agency_01" "SKU_01" 3 2 (by decide)
      (by decide)).2.1 (by decide)⟩,
   (c2_rolling_mean_no_leakage sampleDf "Agency_01" "SKU_01" 3 4 (by decide)
      (by decide)).2.2 999⟩

/-- C3: for every panel and cutoff, the temporal split of `src/data/loader.py`
returns train = exactly the rows with date < cutoff and test = exactly the rows
with date >= cutoff; hence every train date is strictly below every test date
(so max(train) < min(test) whenever both are non-empty), and the same ordering
holds for the `src/data/preprocessing.py` variant whose cutoff is
n-periods-before-max. -/
theorem c3_temporal_split (df : List Row0) (c : Date) (r : Row0)
    (dfp : List prep.PRow) (n : ℕ) :
    (r ∈ (loader.split_train_test df c).1 ↔ r ∈ df ∧ Date.lt r.date c) ∧
    (r ∈ (loader.split_train_test df c).2 ↔ r ∈ df ∧ Date.le c r.date) ∧
    (∀ r1, r1 ∈ (loader.split_train_test df c).1 →
      ∀ r2, r2 ∈ (loader.split_train_test df c).2 → Date.lt r1.date r2.date) ∧
    (∀ q1, q1 ∈ (prep.split_train_test dfp n).1 →
      ∀ q2, q2 ∈ (prep.split_train_test dfp n).2 → Date.lt q1.date q2.date) := by
  refine ⟨?_, ?_, ?_, ?_⟩
  · rw [loader.split_train_test]
    simp [List.mem_filter]
  · rw [loader.split_train_test]
    simp [List.mem_filter]
  · intro r1 h1 r2 h2
    rw [loader.split_train_test] at h1 h2
    simp only [List.mem_filter, decide_eq_true_eq] at h1 h2
    exact Date.lt_of_lt_of_le h1.2 h2.2
  · intro q1 h1 q2 h2
    rw [prep.split_train_test] at h1 h2
    simp only [List.mem_filter, decide_eq_true_eq] at h1 h2
    exact Date.lt_of_lt_of_le h1.2 h2.2

theorem c3_temporal_split_witness :
    sampleRow 1 10 ∈ (loader.split_train_test sampleDf ⟨2013, 3, 1⟩).1 ∧
    sampleRow 4 40 ∈ (loader.split_train_test sampleDf ⟨2013, 3, 1⟩).2 ∧
    Date.lt (sampleRow 1 10).date (sampleRow 4 40).date ∧
    pRow "a" "s1" 1 (some 5) ∈ (prep.split_train_test cleanPanel 0).1 ∧
    pRow "b" "s2" 2 (some 7) ∈ (prep.split_train_test cleanPanel 0).2 ∧
    Date.lt (pRow "a" "s1" 1 (some 5)).date (pRow "b" "s2" 2 (some 7)).date :=
  ⟨by decide, by decide,
   (c3_temporal_split sampleDf ⟨2013, 3, 1⟩ (sampleRow 1 10) cleanPanel 0).2.2.1
     (sampleRow 1 10) (by decide) (sampleRow 4 40) (by decide),
   by decide, by decide,
   (c3_temporal_split sampleDf ⟨2013, 3, 1⟩ (sampleRow 1 10) cleanPanel 0).2.2.2
     (pRow "a" "s1" 1 (some 5)) (by decide) (pRow "b" "s2" 2 (some 7)) (by decide)⟩

/-- C4: in fit mode `create_historical_features` computes the three grouped
mean tables of the volume — by (agency, sku, month), by (agency, sku) and by
(sku, month) — and returns them: each key occurring in the panel is mapped to
the mean volume of its group.  In transform mode it left-joins each supplied
table by its grouping key and returns the tables unchanged: every row's
aggregate column is the lookup of its key, a key absent from a table yields a
null, and a key a table holds (tables have unique keys) yields the fitted mean
unchanged. -/
theorem c4_historical_features (df : List Row1) :
    (∀ k, k ∈ df.map (fun r => (r.agency, r.sku, r.month)) →
      tlookup (create_historical_features df none).2.by_agency_sku_month k =
        some (meanOf ((df.filter (fun r =>
          decide ((r.agency, r.sku, r.month) = k))).map (fun r => r.volume)))) ∧
    (∀ k, k ∈ df.map (fun r => (r.agency, r.sku)) →
      tlookup (create_historical_features df none).2.by_agency_sku k =
        some (meanOf ((df.filter (fun r =>
          decide ((r.agency, r.sku) = k))).map (fun r => r.volume)))) ∧
    (∀ k, k ∈ df.map (fun r => (r.sku, r.month)) →
      tlookup (create_historical_features df none).2.by_sku_month k =
        some (meanOf ((df.filter (fun r =>
          decide ((r.sku, r.month) = k))).map (fun r => r.volume)))) ∧
    (∀ hm : HistMeans,
      (create_historical_features df (some hm)).1.map
          (fun r => r.mean_volume_agency_sku_month) =
        df.map (fun r => tlookup hm.by_agency_sku_month (r.agency, r.sku, r.month)) ∧
      (create_historical_features df (some hm)).1.map
          (fun r => r.mean_volume_agency_sku) =
        df.map (fun r => tlookup hm.by_agency_sku (r.agency, r.sku)) ∧
      (create_historical_features df (some hm)).1.map
          (fun r => r.mean_volume_sku_month) =
        df.map (fun r => tlookup hm.by_sku_month (r.sku, r.month)) ∧
      (create_historical_features df (some hm)).2 = hm) ∧
    (∀ (tbl : List ((String × String × ℕ) × ℚ)) k, k ∉ tbl.map Prod.fst →
      tlookup tbl k = none) ∧
    (∀ (tbl : List ((String × String × ℕ) × ℚ)) k m, (tbl.map Prod.fst).Nodup →
      (k, m) ∈ tbl → tlookup tbl k = some m) := by
  refine ⟨?_, ?_, ?_, ?_, ?_, ?_⟩
  · intro k hk
    have h2 : (create_historical_features df none).2.by_agency_sku_month =
        groupMeanBy (fun r => (r.agency, r.sku, r.month)) df := rfl
    rw [h2, tlookup_groupMeanBy, if_pos hk]
  · intro k hk
    have h2 : (create_historical_features df none).2.by_agency_sku =
        groupMeanBy (fun r => (r.agency, r.sku)) df := rfl
    rw [h2, tlookup_groupMeanBy, if_pos hk]
  · intro k hk
    have h2 : (create_historical_features df none).2.by_sku_month =
        groupMeanBy (fun r => (r.sku, r.month)) df := rfl
    rw [h2, tlookup_groupMeanBy, if_pos hk]
  · intro hm
    refine ⟨?_, ?_, ?_, rfl⟩ <;>
      · show (df.map _).map _ = _
        rw [List.map_map]
        rfl
  · intro tbl k hk
    exact tlookup_eq_none tbl k hk
  · intro tbl k m hnd hm
    exact tlookup_of_mem tbl k m hnd hm

theorem c4_historical_features_witness :
    (("Agency_01", "SKU_01", 1) ∈ (create_temporal_features sampleDf).map
        (fun r => (r.agency, r.sku, r.month)) ∧
      tlookup (create_historical_features (create_temporal_features sampleDf)
          none).2.by_agency_sku_month ("Agency_01", "SKU_01", 1) =
        some (meanOf (((create_temporal_features sampleDf).filter (fun r =>
          decide ((r.agency, r.sku, r.month) = ("Agency_01", "SKU_01", 1)))).map
            (fun r => r.volume)))) ∧
    ((create_historical_features (create_temporal_features sampleDf)
        (some sampleHM)).1.map (fun r => r.mean_volume_agency_sku_month) =
      (create_temporal_features sampleDf).map (fun r =>
        tlookup sampleHM.by_agency_sku_month (r.agency, r.sku, r.month)) ∧
     (create_historical_features (create_temporal_features sampleDf)
        (some sampleHM)).2 = sampleHM) ∧
    (("X", "Y", 9) ∉ sampleHM.by_agency_sku_month.map Prod.fst ∧
      tlookup sampleHM.by_agency_sku_month ("X", "Y", 9) = none) ∧
    ((sampleHM.by_agency_sku_month.map Prod.fst).Nodup ∧
      (("Agency_01", "SKU_01", 1), (11 : ℚ)) ∈ sampleHM.by_agency_sku_month ∧
      tlookup sampleHM.by_agency_sku_month ("Agency_01", "SKU_01", 1) = some 11) :=
  ⟨⟨by decide,
    (c4_historical_features (create_temporal_features sampleDf)).1
      ("Agency_01", "SKU_01", 1) (by decide)⟩,
   ⟨((c4_historical_features (create_temporal_features sampleDf)).2.2.2.1 sampleHM).1,
    ((c4_historical_features (create_temporal_features sampleDf)).2.2.2.1
      sampleHM).2.2.2⟩,
   ⟨by decide,
    (c4_historical_features (create_temporal_features sampleDf)).2.2.2.2.1
      sampleHM.by_agency_sku_month ("X", "Y", 9) (by decide)⟩,
   ⟨by decide, by decide,
    (c4_historical_features (create_temporal_features sampleDf)).2.2.2.2.2
      sampleHM.by_agency_sku_month ("Agency_01", "SKU_01", 1) 11 (by decide)
      (by decide)⟩⟩

/-- C5: for every entity identifier present in the panel at fit time, the code
the fitted encoder assigns to it is decoded back to the identifier:
decode(encode(x)) = x, for the agency map and for the sku map of the encoders
`prepare_features` fits. -/
theorem c5_encoder_roundtrip (df : List Row0) (x y : String)
    (hx : x ∈ df.map (fun r => r.agency)) (hy : y ∈ df.map (fun r => r.sku)) :
    (∃ c, encode (prepare_features df none none).2.2.agency x = some c ∧
      decode (prepare_features df none none).2.2.agency c = some x) ∧
    (∃ c, encode (prepare_features df none none).2.2.sku y = some c ∧
      decode (prepare_features df none none).2.2.sku c = some y) := by
  have hagree : ((create_historical_features (create_temporal_features df) none).1).map
      (fun r => r.agency) = df.map (fun r => r.agency) := by
    show ((df.map _).map _).map _ = _
    rw [List.map_map, List.map_map]
    rfl
  have sagree : ((create_historical_features (create_temporal_features df) none).1).map
      (fun r => r.sku) = df.map (fun r => r.sku) := by
    show ((df.map _).map _).map _ = _
    rw [List.map_map, List.map_map]
    rfl
  have henc : (prepare_features df none none).2.2.agency =
      assignCodes (uniqueFS (df.map (fun r => r.agency))) 0 := by
    have h0 : (prepare_features df none none).2.2.agency =
        assignCodes (uniqueFS
          (((create_historical_features (create_temporal_features df) none).1).map
            (fun r => r.agency))) 0 := rfl
    rw [h0, hagree]
  have hsen : (prepare_features df none none).2.2.sku =
      assignCodes (uniqueFS (df.map (fun r => r.sku))) 0 := by
    have h0 : (prepare_features df none none).2.2.sku =
        assignCodes (uniqueFS
          (((create_historical_features (create_temporal_features df) none).1).map
            (fun r => r.sku))) 0 := rfl
    rw [h0, sagree]
  constructor
  · obtain ⟨c, _, henc2, hdec⟩ :=
      assignCodes_roundtrip x (uniqueFS (df.map (fun r => r.agency))) 0
        ((mem_uniqueFS _ _).mpr hx)
    exact ⟨c, by rw [henc]; exact henc2, by rw [henc]; exact hdec⟩
  · obtain ⟨c, _, henc2, hdec⟩ :=
      assignCodes_roundtrip y (uniqueFS (df.map (fun r => r.sku))) 0
        ((mem_uniqueFS _ _).mpr hy)
    exact ⟨c, by rw [hsen]; exact henc2, by rw [hsen]; exact hdec⟩

theorem c5_encoder_roundtrip_witness :
    "Agency_01" ∈ sampleDf.map (fun r => r.agency) ∧
    "SKU_01" ∈ sampleDf.map (fun r => r.sku) ∧
    ((∃ c, encode (prepare_features sampleDf none none).2.2.agency "Agency_01" =
        some c ∧
      decode (prepare_features sampleDf none none).2.2.agency c = some "Agency_01") ∧
     (∃ c, encode (prepare_features sampleDf none none).2.2.sku "SKU_01" = some c ∧
      decode (prepare_features sampleDf none none).2.2.sku c = some "SKU_01")) :=
  ⟨by decide, by decide,
   c5_encoder_roundtrip sampleDf "Agency_01" "SKU_01" (by decide) (by decide)⟩

theorem Date.le_of_not_lt {a b : Date} (h : ¬ Date.lt a b) : Date.le b a := by
  rcases a with ⟨y1, m1, d1⟩; rcases b with ⟨y2, m2, d2⟩
  simp only [Date.lt, Date.le, Date.mk.injEq] at h ⊢
  omega

theorem allEq_perm {α : Type} [DecidableEq α] {l1 l2 : List α} (h : l1.Perm l2) :
    prep.allEq l1 = prep.allEq l2 := by
  cases h1 : prep.allEq l1 <;> cases h2 : prep.allEq l2 <;> try rfl
  · rw [allEq_iff] at h2
    have : prep.allEq l1 = true :=
      (allEq_iff l1).mpr (fun a ha b hb => h2 a (h.mem_iff.mp ha) b (h.mem_iff.mp hb))
    rw [h1] at this
    exact absurd this (by simp)
  · rw [allEq_iff] at h1
    have : prep.allEq l2 = true :=
      (allEq_iff l2).mpr (fun a ha b hb => h1 a (h.mem_iff.mpr ha) b (h.mem_iff.mpr hb))
    rw [h2] at this
    exact absurd this (by simp)

/-- C6 counterexample: no clipping is applied to predictions.  With a model
whose output is -1, `predict` emits a negative `predicted_volume`, refuting
"every output row has predicted_volume >= 0". -/
theorem c6_clipping_counterexample :
    (predict [sampleRow 1 10] (fun _ => (-1 : ℚ)) sampleHM sampleEnc).map
      (fun r => r.predicted_volume) = [(-1 : ℚ)] ∧
    ¬ ((-1 : ℚ) ≥ 0) := by
  constructor
  · rfl
  · norm_num

/-- C6 amended: prediction and forecast outputs carry the model's raw outputs
unchanged — `predicted_volume` is exactly the model evaluated on the row's
feature columns, with no non-negativity clipping applied; outputs are
non-negative only when the model's outputs are. -/
theorem c6_raw_model_output (df : List Row0) (model : Features → ℚ)
    (hm : HistMeans) (enc : Encoders) (agencies skus : List String) (sd ed : Date) :
    (predict df model hm enc).map (fun r => r.predicted_volume) =
      ((prepare_features df (some hm) (some enc)).1).map
        (fun r => model (featuresOf r)) ∧
    (generate_forecast agencies skus sd ed model hm enc).map
        (fun r => r.predicted_volume) =
      ((prepare_features (forecast_rows agencies skus sd ed) (some hm)
          (some enc)).1).map (fun r => model (featuresOf r)) := by
  constructor
  · rw [predict, List.map_map]
    rfl
  · rw [generate_forecast, List.map_map, predict, List.map_map]
    rfl

/-- C7 counterexample: a defect-free panel (no missing target, no duplicate
keys) on which preprocessing nevertheless fails: on a single-row panel every
column is constant, the constant-column elimination drops the target column,
and the subsequent target access raises a KeyError instead of returning
normally. -/
theorem c7_constant_target_counterexample :
    singletonPanel.any (fun r => decide (r.volume = none)) = false ∧
    (singletonPanel.map prep.rowKey).Nodup ∧
    prep.preprocess_data singletonPanel = Except.error prep.PreprocessError.keyError := by
  refine ⟨by decide, by decide, by rfl⟩

/-- C7 amended: preprocessing fails whenever the target column contains a
missing value, and whenever two rows share the same (agency, sku, date) key;
a panel free of both defects returns normally provided none of the checked
columns (volume, agency, sku, date) is constant across the panel — when one
is, the constant-column elimination drops it and preprocessing raises a
KeyError even on a defect-free panel. -/
theorem c7_preprocess_checks (rows : List prep.PRow) :
    ((∃ r ∈ rows, r.volume = none) → (prep.preprocess_data rows).isOk = false) ∧
    (¬ (rows.map prep.rowKey).Nodup → (prep.preprocess_data rows).isOk = false) ∧
    ((∀ r ∈ rows, r.volume ≠ none) → (rows.map prep.rowKey).Nodup →
      prep.allEq (rows.map (fun r => r.volume)) = false →
      prep.allEq (rows.map (fun r => r.agency)) = false →
      prep.allEq (rows.map (fun r => r.sku)) = false →
      prep.allEq (rows.map (fun r => r.date)) = false →
      ∃ out, prep.preprocess_data rows = Except.ok out) := by
  have hperm : (List.insertionSort prep.rowLe rows).Perm rows :=
    List.perm_insertionSort _ _
  refine ⟨?_, ?_, ?_⟩
  · rintro ⟨r, hr, hv⟩
    simp only [prep.preprocess_data]
    split_ifs with h1 h2 h3 h4 <;> try rfl
    exact absurd (List.any_eq_true.mpr ⟨r, hperm.mem_iff.mpr hr, by simp [hv]⟩) h2
  · intro hnd
    simp only [prep.preprocess_data]
    split_ifs with h1 h2 h3 h4 <;> try rfl
    simp only [decide_eq_true_eq, not_not] at h4
    exact absurd ((hperm.map prep.rowKey).nodup_iff.mp h4) hnd
  · intro hmiss hnd hvol hag hsku hdate
    have hvol2 : prep.allEq ((List.insertionSort prep.rowLe rows).map
        (fun r => r.volume)) = false := by
      rw [allEq_perm (hperm.map (fun r => r.volume))]
      exact hvol
    have hag2 : prep.allEq ((List.insertionSort prep.rowLe rows).map
        (fun r => r.agency)) = false := by
      rw [allEq_perm (hperm.map (fun r => r.agency))]
      exact hag
    have hsku2 : prep.allEq ((List.insertionSort prep.rowLe rows).map
        (fun r => r.sku)) = false := by
      rw [allEq_perm (hperm.map (fun r => r.sku))]
      exact hsku
    have hdate2 : prep.allEq ((List.insertionSort prep.rowLe rows).map
        (fun r => r.date)) = false := by
      rw [allEq_perm (hperm.map (fun r => r.date))]
      exact hdate
    have hany2 : (List.insertionSort prep.rowLe rows).any
        (fun r => decide (r.volume = none)) = false := by
      rw [Bool.eq_false_iff]
      intro h
      obtain ⟨r, hr, hd⟩ := List.any_eq_true.mp h
      exact hmiss r (hperm.mem_iff.mp hr) (by simpa using hd)
    have hnd2 : ((List.insertionSort prep.rowLe rows).map prep.rowKey).Nodup :=
      (hperm.map prep.rowKey).nodup_iff.mpr hnd
    refine ⟨List.insertionSort prep.rowLe rows, ?_⟩
    simp only [prep.preprocess_data]
    rw [if_neg (by simp [hvol2]), if_neg (by simp [hany2]),
      if_neg (by simp [hag2, hsku2, hdate2]), if_neg (by simp [hnd2])]

theorem c7_preprocess_checks_witness :
    ((∃ r ∈ missingPanel, r.volume = none) ∧
      (prep.preprocess_data missingPanel).isOk = false) ∧
    ((¬ (dupPanel.map prep.rowKey).Nodup) ∧
      (prep.preprocess_data dupPanel).isOk = false) ∧
    ((∀ r ∈ cleanPanel, r.volume ≠ none) ∧ (cleanPanel.map prep.rowKey).Nodup ∧
      prep.allEq (cleanPanel.map (fun r => r.volume)) = false ∧
      prep.allEq (cleanPanel.map (fun r => r.agency)) = false ∧
      prep.allEq (cleanPanel.map (fun r => r.sku)) = false ∧
      prep.allEq (cleanPanel.map (fun r => r.date)) = false ∧
      ∃ out, prep.preprocess_data cleanPanel = Except.ok out) :=
  ⟨⟨by decide, (c7_preprocess_checks missingPanel).1 (by decide)⟩,
   ⟨by decide, (c7_preprocess_checks dupPanel).2.1 (by decide)⟩,
   ⟨by decide, by decide, by decide, by decide, by decide, by decide,
    (c7_preprocess_checks cleanPanel).2.2 (by decide) (by decide) (by decide)
      (by decide) (by decide) (by decide)⟩⟩

/-- C8 counterexample: neither split function raises on an empty side — each
returns the empty partition.  With a cutoff after every row, the loader split
returns an empty test set; with a cutoff before every row, the preprocessing
split returns an empty train set.  This refutes "the split raises rather than
returning an empty partition". -/
theorem c8_empty_partition_counterexample :
    loader.split_train_test [sampleRow 1 10] ⟨2014, 1, 1⟩ = ([sampleRow 1 10], []) ∧
    prep.split_train_test cleanPanel 24 = ([], cleanPanel) := by
  constructor
  · rfl
  · rfl

/-- C8 amended: the temporal split is total and never signals emptiness: when
every row is strictly before the cutoff it returns (all rows, []), and when no
row is strictly before the cutoff it returns ([], all rows) — in both
variants. -/
theorem c8_split_returns_empty_partitions (df : List Row0) (c : Date)
    (dfp : List prep.PRow) (n : ℕ) :
    ((∀ r ∈ df, Date.lt r.date c) → loader.split_train_test df c = (df, [])) ∧
    ((∀ r ∈ df, ¬ Date.lt r.date c) → loader.split_train_test df c = ([], df)) ∧
    ((∀ r ∈ dfp, Date.lt r.date (prep.subMonths (prep.maxDate dfp) n)) →
      prep.split_train_test dfp n = (dfp, [])) ∧
    ((∀ r ∈ dfp, ¬ Date.lt r.date (prep.subMonths (prep.maxDate dfp) n)) →
      prep.split_train_test dfp n = ([], dfp)) := by
  refine ⟨?_, ?_, ?_, ?_⟩
  · intro h
    have h1 : df.filter (fun r => decide (Date.lt r.date c)) = df :=
      List.filter_eq_self.mpr (fun r hr => by simpa using h r hr)
    have h2 : df.filter (fun r => decide (Date.le c r.date)) = [] :=
      List.filter_eq_nil_iff.mpr (fun r hr => by simpa using Date.not_le_of_lt (h r hr))
    rw [loader.split_train_test, h1, h2]
  · intro h
    have h1 : df.filter (fun r => decide (Date.lt r.date c)) = [] :=
      List.filter_eq_nil_iff.mpr (fun r hr => by simpa using h r hr)
    have h2 : df.filter (fun r => decide (Date.le c r.date)) = df :=
      List.filter_eq_self.mpr (fun r hr => by simpa using Date.le_of_not_lt (h r hr))
    rw [loader.split_train_test, h1, h2]
  · intro h
    have h1 : dfp.filter (fun r =>
        decide (Date.lt r.date (prep.subMonths (prep.maxDate dfp) n))) = dfp :=
      List.filter_eq_self.mpr (fun r hr => by simpa using h r hr)
    have h2 : dfp.filter (fun r =>
        decide (Date.le (prep.subMonths (prep.maxDate dfp) n) r.date)) = [] :=
      List.filter_eq_nil_iff.mpr (fun r hr => by simpa using Date.not_le_of_lt (h r hr))
    rw [prep.split_train_test, h1, h2]
  · intro h
    have h1 : dfp.filter (fun r =>
        decide (Date.lt r.date (prep.subMonths (prep.maxDate dfp) n))) = [] :=
      List.filter_eq_nil_iff.mpr (fun r hr => by simpa using h r hr)
    have h2 : dfp.filter (fun r =>
        decide (Date.le (prep.subMonths (prep.maxDate dfp) n) r.date)) = dfp :=
      List.filter_eq_self.mpr (fun r hr => by simpa using Date.le_of_not_lt (h r hr))
    rw [prep.split_train_test, h1, h2]

theorem c8_split_returns_empty_partitions_witness :
    (∀ r ∈ [sampleRow 1 10], Date.lt r.date (⟨2014, 1, 1⟩ : Date)) ∧
    loader.split_train_test [sampleRow 1 10] ⟨2014, 1, 1⟩ = ([sampleRow 1 10], []) ∧
    (∀ r ∈ cleanPanel, ¬ Date.lt r.date (prep.subMonths (prep.maxDate cleanPanel) 24)) ∧
    prep.split_train_test cleanPanel 24 = ([], cleanPanel) :=
  ⟨by decide,
   (c8_split_returns_empty_partitions [sampleRow 1 10] ⟨2014, 1, 1⟩ cleanPanel 24).1
     (by decide),
   by decide,
   (c8_split_returns_empty_partitions [sampleRow 1 10] ⟨2014, 1, 1⟩ cleanPanel 24).2.2.2
     (by decide)⟩

/-- C9: `prepare_features` with supplied pre-fitted statistics is a pure
transform: the historical means and encoders it returns are exactly the
supplied values (it never mutates or refits them), and calling it twice on the
same input panel yields identical feature output. -/
theorem c9_transform_pure (df : List Row0) (hm : HistMeans) (enc : Encoders) :
    (prepare_features df (some hm) (some enc)).2.1 = hm ∧
    (prepare_features df (some hm) (some enc)).2.2 = enc ∧
    prepare_features df (some hm) (some enc) = prepare_features df (some hm) (some enc) :=
  ⟨rfl, rfl, rfl⟩

/-- C10: applying the categorical encoder with pre-fitted encoder maps never
raises and reserves no sentinel code: the encoded columns are exactly the
per-row dictionary lookups, and an identifier absent from a fitted map is
mapped to null (`none`). -/
theorem c10_unseen_identifier_null (df : List Row2) (enc : Encoders) (x y : String) :
    ((encode_categorical_features df (some enc)).1.map (fun r => r.agency_encoded) =
      df.map (fun r => encode enc.agency r.agency)) ∧
    ((encode_categorical_features df (some enc)).1.map (fun r => r.sku_encoded) =
      df.map (fun r => encode enc.sku r.sku)) ∧
    (x ∉ enc.agency.map Prod.fst → encode enc.agency x = none) ∧
    (y ∉ enc.sku.map Prod.fst → encode enc.sku y = none) := by
  refine ⟨?_, ?_, fun h => encode_eq_none _ _ h, fun h => encode_eq_none _ _ h⟩ <;>
    · show (df.map _).map _ = _
      rw [List.map_map]
      rfl

theorem c10_unseen_identifier_null_witness :
    "Unknown_Agency" ∉ sampleEnc.agency.map Prod.fst ∧
    "Unknown_SKU" ∉ sampleEnc.sku.map Prod.fst ∧
    encode sampleEnc.agency "Unknown_Agency" = none ∧
    encode sampleEnc.sku "Unknown_SKU" = none ∧
    ((encode_categorical_features
        (create_historical_features (create_temporal_features sampleDf)
          (some sampleHM)).1 (some sampleEnc)).1.map (fun r => r.agency_encoded) =
      ((create_historical_features (create_temporal_features sampleDf)
          (some sampleHM)).1).map (fun r => encode sampleEnc.agency r.agency)) :=
  ⟨by decide, by decide,
   (c10_unseen_identifier_null [] sampleEnc "Unknown_Agency" "Unknown_SKU").2.2.1
     (by decide),
   (c10_unseen_identifier_null [] sampleEnc "Unknown_Agency" "Unknown_SKU").2.2.2
     (by decide),
   (c10_unseen_identifier_null
     (create_historical_features (create_temporal_features sampleDf)
       (some sampleHM)).1 sampleEnc "Unknown_Agency" "Unknown_SKU").1⟩
